import Mathlib

/-!
Shallow embedding of the token-lifecycle core of `src/server/index.js`
(theta-health-mcp-dxt): the multi-environment token cache (`TokenCache`),
the response interceptor of `HttpMcpProxy`, the browser-open debounce,
the status-polling loop and the authenticated-request header logic.

Times are milliseconds since the epoch, modelled as `Nat` (`Date.now()`).
JavaScript's `x || d` on possibly-absent values is modelled by `jsOrNat` /
`jsOrStr` (`0`, `""` and `undefined` are falsy).  `JSON.parse` of the text
embedded in a tool response is modelled as an oracle: a `TextVal` is either
absent (`undefined`), a string the parser rejects, or the parsed structure
itself; `jsonParse` returns `none` exactly when the real parse would throw.
-/

/-- Milliseconds in the 7-day fallback token lifetime
(`7 * 24 * 60 * 60 * 1000` in `saveToken` and `startAutoPolling`). -/
def msPerWeek : Nat := 7 * 24 * 60 * 60 * 1000

/-- JavaScript `x || d` for an optional number: `undefined` and `0` are falsy. -/
def jsOrNat (x : Option Nat) (d : Nat) : Nat :=
  match x with
  | some v => if v = 0 then d else v
  | none => d

/-- JavaScript `x || d` for an optional string: `undefined` and `""` are falsy. -/
def jsOrStr (x : Option String) (d : String) : String :=
  match x with
  | some s => if s = "" then d else s
  | none => d

/-- JavaScript truthiness of an optional string (used for `if (token)` checks). -/
def jsTruthyS : Option String → Bool
  | some s => s != ""
  | none => false

/-- JavaScript truthiness of an optional boolean field. -/
def jsTruthyB : Option Bool → Bool
  | some b => b
  | none => false

/-- One persisted token record: the `cacheData` object built by
`TokenCache.saveToken` (src/server/index.js lines 93-104). -/
structure TokenRecord where
  access_token : Option String
  token_type : String
  expires_at : Nat
  refresh_token : Option String
  scope : Option String
  created_at : Nat
  endpoint : String
  environment : String
  last_used : Nat
deriving DecidableEq, Repr

/-- The collection-level metadata block `_saveAllTokens` stamps on every write
(`last_updated`, `version`, `description`; lines 76-80). -/
structure CacheMetadata where
  last_updated : Nat
  version : String
  description : String
deriving DecidableEq, Repr

/-- A value stored under one key of the tokens file: either an environment's
token record or the reserved metadata block. -/
inductive Entry where
  | record (r : TokenRecord)
  | meta (m : CacheMetadata)
deriving DecidableEq, Repr

/-- The backing `tokens.json` file: missing, present but unparseable
(`JSON.parse` throws in `_loadAllTokens`), or a parsed key/value collection.
JavaScript objects keep one value per key; we keep an association list whose
update replaces the first matching key in place, as object assignment does. -/
inductive TokensFile where
  | absent
  | corrupt
  | parsed (entries : List (String × Entry))
deriving DecidableEq, Repr

/-- Lookup of a key in the parsed collection (JS property read). -/
def lookupKey : List (String × Entry) → String → Option Entry
  | [], _ => none
  | (k', v) :: rest, k => if k' = k then some v else lookupKey rest k

/-- Key update in the parsed collection (JS property assignment / spread):
replaces the existing binding in place, else appends. -/
def setKey : List (String × Entry) → String → Entry → List (String × Entry)
  | [], k, v => [(k, v)]
  | (k', v') :: rest, k, v =>
      if k' = k then (k, v) :: rest else (k', v') :: setKey rest k v

/-- Key removal (JS `delete allTokens[key]` in `clearToken`). -/
def removeKey : List (String × Entry) → String → List (String × Entry)
  | [], _ => []
  | (k', v') :: rest, k =>
      if k' = k then removeKey rest k else (k', v') :: removeKey rest k

/-- `TokenCache._loadAllTokens` (lines 55-65): a missing file and a file
`JSON.parse` rejects both yield the empty collection. -/
def loadAllTokens : TokensFile → List (String × Entry)
  | .absent => []
  | .corrupt => []
  | .parsed m => m

/-- The metadata entry `_saveAllTokens` writes (version "2.0"). -/
def metadataEntry (now : Nat) : Entry :=
  .meta { last_updated := now
          version := "2.0"
          description := "Multi-environment token cache for Theta Health MCP" }

/-- `TokenCache._saveAllTokens` (lines 71-89): spreads the collection, stamps
the `_metadata` key and serializes the whole object back to the file. -/
def saveAllTokens (m : List (String × Entry)) (now : Nat) : TokensFile :=
  .parsed (setKey m "_metadata" (metadataEntry now))

/-- The raw payload handed to `TokenCache.saveToken` (field-for-field the
`tokenData` argument; absent fields are `none`). -/
structure TokenPayload where
  access_token : Option String
  token_type : Option String
  expires_at : Option Nat
  refresh_token : Option String
  scope : Option String
deriving DecidableEq, Repr

/-- The `cacheData` record `saveToken` builds (lines 93-104): `token_type`
defaults to "Bearer", `expires_at` defaults to now + 7 days, bookkeeping
fields are stamped with the current time. -/
def mkCacheData (env endpoint : String) (p : TokenPayload) (now : Nat) : TokenRecord :=
  { access_token := p.access_token
    token_type := jsOrStr p.token_type "Bearer"
    expires_at := jsOrNat p.expires_at (now + msPerWeek)
    refresh_token := p.refresh_token
    scope := p.scope
    created_at := now
    endpoint := endpoint
    environment := env
    last_used := now }

/-- `TokenCache.saveToken` (lines 91-118): full read-modify-write of the
collection, updating only the current environment's key, then `_saveAllTokens`
stamps `_metadata` and writes the file. -/
def saveToken (env endpoint : String) (file : TokensFile) (p : TokenPayload)
    (now : Nat) : TokensFile :=
  saveAllTokens (setKey (loadAllTokens file) env
    (.record (mkCacheData env endpoint p now))) now

/-- `TokenCache.clearToken` (lines 146-157): deletes the current environment's
key and rewrites the file, but only when the key was present. -/
def clearToken (env : String) (file : TokensFile) (now : Nat) : TokensFile :=
  let all := loadAllTokens file
  match lookupKey all env with
  | some _ => saveAllTokens (removeKey all env) now
  | none => file

/-- Key lookup through the file wrapper (reading `tokens.json`). -/
def fileLookup (file : TokensFile) (k : String) : Option Entry :=
  match file with
  | .parsed m => lookupKey m k
  | _ => none

/-- Expiry of the record stored under a key, when one is there. -/
def entryExpiry : Option Entry → Option Nat
  | some (.record rec) => some rec.expires_at
  | _ => none

theorem lookupKey_setKey_self (m : List (String × Entry)) (k : String) (v : Entry) :
    lookupKey (setKey m k v) k = some v := by
  induction m with
  | nil => simp [setKey, lookupKey]
  | cons p rest ih =>
    obtain ⟨k', v'⟩ := p
    by_cases h : k' = k
    · simp [setKey, h, lookupKey]
    · simp [setKey, h, lookupKey, ih]

theorem lookupKey_setKey_ne (m : List (String × Entry)) (k k' : String) (v : Entry)
    (h : k' ≠ k) : lookupKey (setKey m k v) k' = lookupKey m k' := by
  induction m with
  | nil => simp [setKey, lookupKey, Ne.symm h]
  | cons p rest ih =>
    obtain ⟨k₀, v₀⟩ := p
    by_cases h0 : k₀ = k
    · subst h0
      simp [setKey, lookupKey, Ne.symm h]
    · simp only [setKey, if_neg h0, lookupKey]
      by_cases h1 : k₀ = k'
      · simp [h1]
      · simp [h1, ih]

/-- Polling directions carried in a browser-authorization payload
(`content.auto_polling`): enabled flag, correlation id, interval and
maximum wait, the latter two optional. -/
structure PollingConfig where
  enabled : Bool
  state : Option String
  check_interval : Option Nat
  max_wait_time : Option Nat
deriving DecidableEq, Repr

/-- The fields of the JSON object embedded as text inside a tool response
that the interceptor ever reads (absent fields are `none`). -/
structure ContentJson where
  success : Option Bool
  access_token : Option String
  token_type : Option String
  expires_in : Option Nat
  refresh_token : Option String
  scope : Option String
  auto_open_browser : Option Bool
  authorization_url : Option String
  auto_polling : Option PollingConfig
deriving DecidableEq, Repr

/-- The `text` field of a content item, seen through `JSON.parse`: absent
(`undefined`), a string the parser rejects, or a successfully parsed object. -/
inductive TextVal where
  | absent
  | invalid (raw : String)
  | valid (c : ContentJson)
deriving DecidableEq, Repr

/-- One element of `response.result.content`. -/
structure ContentItem where
  type : String
  text : TextVal
deriving DecidableEq, Repr

/-- `response.result`, keeping just the `content` field the proxy reads. -/
structure RpcResult where
  content : Option (List ContentItem)
deriving DecidableEq, Repr

/-- A JSON-RPC response from the remote service. -/
structure RpcResponse where
  result : Option RpcResult
deriving DecidableEq, Repr

/-- `JSON.parse(text)` as the interceptor uses it: `none` exactly when the
parse (or the property access that feeds it) would throw. -/
def jsonParse : TextVal → Option ContentJson
  | .absent => none
  | .invalid _ => none
  | .valid c => some c

/-- The guarded access `JSON.parse(response.result.content[0].text)` shared by
every interceptor routine (`response.result && response.result.content &&
response.result.content[0]` then parse): `none` when a guard fails, the
content list is empty, or the parse throws. -/
def firstPayload (r : RpcResponse) : Option ContentJson :=
  match r.result with
  | some res =>
    match res.content with
    | some (item :: _) => jsonParse item.text
    | _ => none
  | none => none

/-- `HttpMcpProxy.isTokenAuthResponse` (lines 297-315): success flag strictly
`true`, truthy access token, token type strictly "Bearer"; any throw yields
`false`. -/
def isTokenAuthResponse (r : RpcResponse) : Bool :=
  match firstPayload r with
  | some c =>
      (c.success == some true) && jsTruthyS c.access_token &&
        (c.token_type == some "Bearer")
  | none => false

/-- `HttpMcpProxy.isAutoOpenBrowserResponse` (lines 320-334): browser flag
strictly `true` and truthy authorization URL; any throw yields `false`. -/
def isAutoOpenBrowserResponse (r : RpcResponse) : Bool :=
  match firstPayload r with
  | some c => (c.auto_open_browser == some true) && jsTruthyS c.authorization_url
  | none => false

/-- The mutable proxy state the interceptor touches: `this.token`,
`this.lastBrowserOpenTime`, and the backing tokens file. -/
structure ProxyState where
  token : Option String
  lastBrowserOpenTime : Nat
  file : TokensFile
deriving DecidableEq, Repr

/-- `this.browserOpenDebounceTime` (line 215): 10 seconds. -/
def debounceMs : Nat := 10000

/-- `HttpMcpProxy.handleTokenAuthResponse` (lines 564-599): re-parses the
payload, and only when the token is truthy and differs from the cached one
updates `this.token` and writes the record through `saveToken`, with expiry
`Date.now() + (content.expires_in || 3600) * 1000`.  Returns the new state
and whether a store write happened. -/
def handleTokenAuthResponse (env endpoint : String) (s : ProxyState)
    (r : RpcResponse) (now : Nat) : ProxyState × Bool :=
  match firstPayload r with
  | some c =>
    match c.access_token with
    | some nt =>
      if nt != "" && s.token != some nt then
        let payload : TokenPayload :=
          { access_token := some nt
            token_type := some (jsOrStr c.token_type "Bearer")
            expires_at := some (now + (jsOrNat c.expires_in 3600) * 1000)
            refresh_token := c.refresh_token
            scope := c.scope }
        ({ s with token := some nt
                  file := saveToken env endpoint s.file payload now }, true)
      else (s, false)
    | none => (s, false)
  | none => (s, false)

/-- What the browser handler did: opened the external browser, only reminded
of the pending link (debounced), or saw no browser signal.  Both actions carry
the polling config it passed to `startAutoPolling` (when enabled). -/
inductive BrowserAction where
  | opened (url : String) (polling : Option PollingConfig)
  | reminded (url : String) (polling : Option PollingConfig)
  | noSignal
deriving DecidableEq, Repr

/-- `startAutoPolling` is invoked only when `content.auto_polling &&
content.auto_polling.enabled` (lines 369, 425). -/
def startedPolling (c : ContentJson) : Option PollingConfig :=
  match c.auto_polling with
  | some pc => if pc.enabled then some pc else none
  | none => none

/-- `HttpMcpProxy.handleAutoOpenBrowserResponse` (lines 339-437): on a browser
signal, if the previous open is less than `debounceMs` ago, leave all state
alone and only remind (still starting any enabled polling); otherwise stamp
the open time, clear the cached credential (file and memory) and open the
browser. -/
def handleAutoOpenBrowserResponse (env : String) (s : ProxyState)
    (r : RpcResponse) (now : Nat) : ProxyState × BrowserAction :=
  match firstPayload r with
  | some c =>
    if jsTruthyB c.auto_open_browser && jsTruthyS c.authorization_url then
      if now - s.lastBrowserOpenTime < debounceMs then
        (s, .reminded (c.authorization_url.getD "") (startedPolling c))
      else
        ({ token := none
           lastBrowserOpenTime := now
           file := clearToken env s.file now },
         .opened (c.authorization_url.getD "") (startedPolling c))
    else (s, .noSignal)
  | none => (s, .noSignal)

/-- What the `CallToolRequestSchema` handler returns to the caller:
the original content list, or a stringified fallback when the response has
no content list (`response.result?.content || [{type, text}]`, lines 719-726). -/
inductive CallToolResult where
  | content (items : List ContentItem)
  | stringified (res : Option RpcResult)
deriving DecidableEq, Repr

/-- The content selection of the `CallToolRequestSchema` handler: an existing
content list (even an empty one, which is truthy in JS) passes through
untouched. -/
def callToolContent (r : RpcResponse) : CallToolResult :=
  match r.result with
  | some res =>
    match res.content with
    | some items => .content items
    | none => .stringified (some res)
  | none => .stringified none

/-- The `CallToolRequestSchema` handler's interception pipeline (lines
696-738): run the token-auth handler when classified as auth success, then
the browser handler when classified as a browser signal, and hand the
(unmodified) content back to the caller. -/
def handleCallToolResponse (env endpoint : String) (s : ProxyState)
    (r : RpcResponse) (now : Nat) : ProxyState × CallToolResult :=
  let s1 := if isTokenAuthResponse r then
      (handleTokenAuthResponse env endpoint s r now).1
    else s
  let s2 := if isAutoOpenBrowserResponse r then
      (handleAutoOpenBrowserResponse env s1 r now).1
    else s1
  (s2, callToolContent r)

/-- The JSON body of the status-check endpoint (`/oauth2/check_state/...`):
a `status` string plus the token fields read on completion. -/
structure StateCheckResponse where
  status : String
  token : Option String
  token_type : Option String
deriving DecidableEq, Repr

/-- What one iteration of the `poll` closure in `startAutoPolling` decides
(lines 448-509). -/
inductive PollOutcome where
  | timeout
  | save (tk : String) (ttype : Option String)
  | stopExpired
  | stopUnauthorized
  | next
deriving DecidableEq, Repr

/-- One iteration of `poll`: the elapsed-time check runs first (strictly
more than `max_wait_time * 1000` ms since `startTime` stops with a timeout,
before any request is made); a failed status request (`fetch = none`, the
catch block) reschedules; `completed` without a token field also lands in the
catch block (the `substring` access throws) and reschedules; `pending`,
`auth_code_generated` and unrecognized statuses reschedule; `expired` and
`unauthorized` stop without saving. -/
def pollStep (startTime maxWait now : Nat) (fetch : Option StateCheckResponse) :
    PollOutcome :=
  if maxWait * 1000 < now - startTime then .timeout
  else
    match fetch with
    | none => .next
    | some resp =>
      if resp.status == "completed" then
        match resp.token with
        | some tk => .save tk resp.token_type
        | none => .next
      else if resp.status == "pending" || resp.status == "auth_code_generated" then
        .next
      else if resp.status == "expired" then .stopExpired
      else if resp.status == "unauthorized" then .stopUnauthorized
      else .next

/-- The `tokenData` object the `completed` branch saves (lines 468-473):
expiry is the *poll step's* `Date.now()` plus 7 days; no refresh token or
scope is carried. -/
def pollSavePayload (tk : String) (ttype : Option String) (now : Nat) :
    TokenPayload :=
  { access_token := some tk
    token_type := ttype
    expires_at := some (now + msPerWeek)
    refresh_token := none
    scope := none }

/-- Result of a whole polling session. -/
inductive SessionResult where
  | saved (tk : String) (time : Nat)
  | timeout
  | failedExpired
  | failedUnauthorized
  | exhausted
deriving DecidableEq, Repr

/-- A polling session as the sequence of timer-driven `poll` iterations:
each event is the wall-clock time of the iteration together with the status
request's result (`none` = network/parse failure).  On `completed` the token
is saved and `this.token` updated; terminal outcomes stop the session. -/
def runPolling (env endpoint : String) (s : ProxyState) (startTime maxWait : Nat) :
    List (Nat × Option StateCheckResponse) → ProxyState × SessionResult
  | [] => (s, .exhausted)
  | (t, f) :: rest =>
    match pollStep startTime maxWait t f with
    | .timeout => (s, .timeout)
    | .save tk ttype =>
      ({ s with token := some tk
                file := saveToken env endpoint s.file (pollSavePayload tk ttype t) t },
       .saved tk t)
    | .stopExpired => (s, .failedExpired)
    | .stopUnauthorized => (s, .failedUnauthorized)
    | .next => runPolling env endpoint s startTime maxWait rest

/-- `HttpMcpProxy.refreshToken` (lines 257-292): on a well-formed response
whose payload has a truthy `success` flag, saves a record whose expiry is
`Date.now() + content.expires_in * 1000` (a missing `expires_in` makes that
expression NaN, which is falsy inside `saveToken` and falls back to the
7-day default, the same as an absent field) and keeps the old refresh token
when the payload carries none.  Returns the file and whether a save happened. -/
def refreshTokenModel (env endpoint : String) (file : TokensFile) (rt : String)
    (r : RpcResponse) (t2 : Nat) : TokensFile × Bool :=
  match firstPayload r with
  | some c =>
    if jsTruthyB c.success then
      let payload : TokenPayload :=
        { access_token := c.access_token
          token_type := c.token_type
          expires_at := c.expires_in.map (fun k => t2 + k * 1000)
          refresh_token := some (jsOrStr c.refresh_token rt)
          scope := c.scope }
      (saveToken env endpoint file payload t2, true)
    else (file, false)
  | none => (file, false)

/-- The tool names exempt from authentication in `makeHttpRequest`
(lines 618-627). -/
def authNotRequiredTools : List String :=
  ["start_authentication", "get_code", "oauth_exchange_code_for_token",
   "oauth_refresh_token", "oauth_validate_token",
   "tools/list", "resources/list", "prompts/list"]

/-- An outbound JSON-RPC request as `makeHttpRequest` inspects it: the
`method` and the optional `params?.name`. -/
structure RpcRequest where
  method : String
  paramsName : Option String
deriving DecidableEq, Repr

/-- The `needsAuth` computation of `makeHttpRequest` (lines 629-635). -/
def needsAuth (d : RpcRequest) : Bool :=
  !((d.method == "tools/list") || (d.method == "resources/list") ||
    (d.method == "prompts/list") ||
    ((d.method == "tools/call") &&
      (match d.paramsName with
       | some n => authNotRequiredTools.contains n
       | none => false)))

/-- `if (needsAuth && this.token)` (line 637): the bearer header is attached
exactly when authentication is needed and a truthy token is held. -/
def attachesAuthHeader (d : RpcRequest) (token : Option String) : Bool :=
  needsAuth d && jsTruthyS token

/-- Proxy state with no cached token, no prior browser open and no tokens file
(a fresh install). -/
def emptyState : ProxyState := { token := none, lastBrowserOpenTime := 0, file := .absent }

/-- A concrete auth-success payload that omits `expires_in`. -/
def sampleAuthContent : ContentJson :=
  { success := some true, access_token := some "tok_fresh", token_type := some "Bearer",
    expires_in := none, refresh_token := none, scope := none,
    auto_open_browser := none, authorization_url := none, auto_polling := none }

/-- A tool response embedding `sampleAuthContent` as its text payload. -/
def sampleAuthResponse : RpcResponse :=
  { result := some { content := some [{ type := "text", text := .valid sampleAuthContent }] } }

/-- A concrete record held by another environment. -/
def sampleRecordB : TokenRecord :=
  { access_token := some "tokB", token_type := "Bearer", expires_at := 42,
    refresh_token := none, scope := none, created_at := 1, endpoint := "epB",
    environment := "envB", last_used := 1 }

/-- A concrete save payload with no explicit expiry. -/
def samplePayload : TokenPayload :=
  { access_token := some "tokA", token_type := none, expires_at := none,
    refresh_token := none, scope := none }

/-- A tool response whose embedded text is present but is not valid JSON. -/
def malformedResponse : RpcResponse :=
  { result := some { content := some [{ type := "text", text := .invalid "not json" }] } }

/-- C1: saving a token under environment key A on a parseable tokens file
leaves the record stored under any other environment key B unchanged (the
entry value is preserved, hence its deterministic serialization is
byte-for-byte identical), and every key other than A and the reserved
`_metadata` key maps to exactly what it mapped to before: the write replaces
only A's entry and the metadata block. -/
theorem c1_save_preserves_other_env (envA endpoint envB : String)
    (m : List (String × Entry)) (p : TokenPayload) (now : Nat) (e : Entry)
    (hAB : envB ≠ envA) (hBm : envB ≠ "_metadata")
    (hB : lookupKey m envB = some e) :
    fileLookup (saveToken envA endpoint (.parsed m) p now) envB = some e ∧
    ∀ k, k ≠ envA → k ≠ "_metadata" →
      fileLookup (saveToken envA endpoint (.parsed m) p now) k = lookupKey m k := by
  constructor
  · simp only [saveToken, saveAllTokens, loadAllTokens, fileLookup]
    rw [lookupKey_setKey_ne _ _ _ _ hBm, lookupKey_setKey_ne _ _ _ _ hAB, hB]
  · intro k hk hkm
    simp only [saveToken, saveAllTokens, loadAllTokens, fileLookup]
    rw [lookupKey_setKey_ne _ _ _ _ hkm, lookupKey_setKey_ne _ _ _ _ hk]

/-- Witness for C1 at a concrete file holding a record for "envB" while
"envA" is saved. -/
theorem c1_save_preserves_other_env_witness :
    fileLookup (saveToken "envA" "ep"
        (.parsed [("envB", .record sampleRecordB)]) samplePayload 5) "envB"
      = some (.record sampleRecordB) :=
  (c1_save_preserves_other_env "envA" "ep" "envB"
    [("envB", .record sampleRecordB)] samplePayload 5 (.record sampleRecordB)
    (by decide) (by decide) rfl).1

/-- C10: when the backing tokens file exists but is unparseable,
`_loadAllTokens` degrades it to the empty collection, so the next save writes
a file holding exactly the current environment's fresh record plus the
metadata block; records of other environments present in the unparseable file
are not preserved. -/
theorem c10_unparseable_file_clobbered (env endpoint : String) (p : TokenPayload)
    (now : Nat) (henv : env ≠ "_metadata") :
    saveToken env endpoint .corrupt p now
      = .parsed [(env, .record (mkCacheData env endpoint p now)),
                 ("_metadata", metadataEntry now)] ∧
    ∀ k, k ≠ env → k ≠ "_metadata" →
      fileLookup (saveToken env endpoint .corrupt p now) k = none := by
  constructor
  · simp [saveToken, saveAllTokens, loadAllTokens, setKey, henv]
  · intro k hk hkm
    simp [saveToken, saveAllTokens, loadAllTokens, setKey, henv, fileLookup,
          lookupKey, Ne.symm hk, Ne.symm hkm]

/-- Witness for C10 at a concrete environment key and payload. -/
theorem c10_unparseable_file_clobbered_witness :
    saveToken "env" "ep" .corrupt samplePayload 5
      = .parsed [("env", .record (mkCacheData "env" "ep" samplePayload 5)),
                 ("_metadata", metadataEntry 5)] :=
  (c10_unparseable_file_clobbered "env" "ep" samplePayload 5 (by decide)).1

/-- C3: a tool response that carries a content list but whose embedded text
payload is missing, not valid JSON, or otherwise malformed (`firstPayload`
is `none`) is classified as no signal by both interceptor classifiers, and
the call-tool handler neither touches the proxy state nor alters the content
handed back to the caller. -/
theorem c3_malformed_payload_passthrough (env endpoint : String) (s : ProxyState)
    (now : Nat) (r : RpcResponse) (res : RpcResult) (items : List ContentItem)
    (hres : r.result = some res) (hitems : res.content = some items)
    (hmal : firstPayload r = none) :
    isTokenAuthResponse r = false ∧ isAutoOpenBrowserResponse r = false ∧
    handleCallToolResponse env endpoint s r now = (s, .content items) := by
  refine ⟨?_, ?_, ?_⟩
  · simp [isTokenAuthResponse, hmal]
  · simp [isAutoOpenBrowserResponse, hmal]
  · simp [handleCallToolResponse, isTokenAuthResponse, isAutoOpenBrowserResponse,
          hmal, callToolContent, hres, hitems]

/-- Witness for C3 at a concrete response whose embedded text is not JSON. -/
theorem c3_malformed_payload_passthrough_witness :
    handleCallToolResponse "env" "ep" emptyState malformedResponse 7
      = (emptyState, .content [{ type := "text", text := .invalid "not json" }]) :=
  (c3_malformed_payload_passthrough "env" "ep" emptyState 7 malformedResponse
    { content := some [{ type := "text", text := .invalid "not json" }] }
    [{ type := "text", text := .invalid "not json" }] rfl rfl rfl).2.2

/-- Counterexample to C2: an intercepted auth-success payload that omits
`expires_in`, applied at save time 0 to a fresh proxy, persists a record
whose expiry is 3 600 000 ms (one hour), not save time + 7 days, so the
claimed 7-day default does not hold on the interception path. -/
theorem c2_counterexample :
    entryExpiry (fileLookup
        (handleTokenAuthResponse "env" "ep" emptyState sampleAuthResponse 0).1.file "env")
      = some 3600000 ∧ (3600000 : Nat) ≠ 0 + msPerWeek := by
  constructor
  · rfl
  · decide

/-- C2 (amended): on every path through `handleTokenAuthResponse` that
persists a new token, the stored expiry equals the save time plus the
declared lifetime (`expires_in` seconds); when the payload omits the
lifetime, this path defaults to save time + 3600 seconds (one hour), while
a direct `saveToken` whose payload carries no expiry timestamp defaults to
save time + 7 days. -/
theorem c2_expiry_computation (env endpoint : String) (s : ProxyState)
    (r : RpcResponse) (now : Nat) (c : ContentJson) (nt : String)
    (henv : env ≠ "_metadata") (hp : firstPayload r = some c)
    (hnt : c.access_token = some nt) (hne : nt ≠ "")
    (hdiff : s.token ≠ some nt) :
    (∃ rec, fileLookup (handleTokenAuthResponse env endpoint s r now).1.file env
        = some (.record rec) ∧
      (∀ k, c.expires_in = some k → k ≠ 0 → rec.expires_at = now + k * 1000) ∧
      (c.expires_in = none → rec.expires_at = now + 3600 * 1000)) ∧
    (∀ p : TokenPayload, p.expires_at = none →
      (mkCacheData env endpoint p now).expires_at = now + msPerWeek) := by
  constructor
  · have hcond : (nt != "" && s.token != some nt) = true := by
      simp [bne_iff_ne, hne, hdiff]
    simp only [handleTokenAuthResponse, hp, hnt, hcond, if_true]
    refine ⟨mkCacheData env endpoint
      { access_token := some nt
        token_type := some (jsOrStr c.token_type "Bearer")
        expires_at := some (now + (jsOrNat c.expires_in 3600) * 1000)
        refresh_token := c.refresh_token
        scope := c.scope } now, ?_, ?_, ?_⟩
    · simp only [saveToken, saveAllTokens, loadAllTokens, fileLookup]
      rw [lookupKey_setKey_ne _ _ _ _ henv, lookupKey_setKey_self]
    · intro k hk hk0
      simp only [mkCacheData, jsOrNat, hk]
      have h1 : ¬ (k = 0) := hk0
      have h2 : ¬ (now + k * 1000 = 0) := by
        intro h
        exact hk0 (by omega)
      simp [h1, h2]
    · intro hk
      simp only [mkCacheData, jsOrNat, hk]
      have h2 : ¬ (now + 3600 * 1000 = 0) := by omega
      simp [h2]
  · intro p hp0
    simp [mkCacheData, jsOrNat, hp0]

/-- Witness for C2 (amended) at the concrete no-lifetime payload: the stored
expiry is save time (0) + one hour. -/
theorem c2_expiry_computation_witness :
    ∃ rec, fileLookup
        (handleTokenAuthResponse "env" "ep" emptyState sampleAuthResponse 0).1.file "env"
      = some (.record rec) ∧
      (∀ k, sampleAuthContent.expires_in = some k → k ≠ 0 →
        rec.expires_at = 0 + k * 1000) ∧
      (sampleAuthContent.expires_in = none → rec.expires_at = 0 + 3600 * 1000) :=
  (c2_expiry_computation "env" "ep" emptyState sampleAuthResponse 0
    sampleAuthContent "tok_fresh" (by decide) rfl rfl (by decide) (by decide)).1

/-- C7: an intercepted auth-success payload whose access token equals the
currently cached in-memory token causes no store write and leaves the state
untouched; and for any response whatsoever, applying the token-auth handler
twice in a row performs at most one store write (the second application of
an identical auth-success response is a no-op). -/
theorem c7_identical_token_no_write (env endpoint : String) (s : ProxyState)
    (r : RpcResponse) (now1 now2 : Nat) :
    (∀ c t, firstPayload r = some c → c.access_token = some t → s.token = some t →
      handleTokenAuthResponse env endpoint s r now1 = (s, false)) ∧
    (handleTokenAuthResponse env endpoint s r now1).2.toNat +
      (handleTokenAuthResponse env endpoint
        (handleTokenAuthResponse env endpoint s r now1).1 r now2).2.toNat ≤ 1 := by
  constructor
  · intro c t hp ht hs
    simp [handleTokenAuthResponse, hp, ht, hs]
  · cases hp : firstPayload r with
    | none => simp [handleTokenAuthResponse, hp]
    | some c =>
      cases hat : c.access_token with
      | none => simp [handleTokenAuthResponse, hp, hat]
      | some nt =>
        by_cases hc : (nt != "" && s.token != some nt) = true
        · simp [handleTokenAuthResponse, hp, hat, hc]
        · simp [handleTokenAuthResponse, hp, hat, hc]

/-- Witness for C7: processing the concrete auth-success response when its
token is already the cached one performs no write and no state change. -/
theorem c7_identical_token_no_write_witness :
    handleTokenAuthResponse "env" "ep"
        { token := some "tok_fresh", lastBrowserOpenTime := 0, file := .absent }
        sampleAuthResponse 3 =
      ({ token := some "tok_fresh", lastBrowserOpenTime := 0, file := .absent }, false) :=
  (c7_identical_token_no_write "env" "ep"
    { token := some "tok_fresh", lastBrowserOpenTime := 0, file := .absent }
    sampleAuthResponse 3 4).1 sampleAuthContent "tok_fresh" rfl rfl rfl

/-- Number of external browser-open invocations an action performs. -/
def openCount : BrowserAction → Nat
  | .opened _ _ => 1
  | _ => 0

theorem openCount_le_one (a : BrowserAction) : openCount a ≤ 1 := by
  cases a <;> simp [openCount]

/-- A concrete polling config carried by a browser-authorization payload. -/
def samplePollingCfg : PollingConfig :=
  { enabled := true, state := some "sid", check_interval := none, max_wait_time := none }

/-- A concrete browser-authorization payload. -/
def sampleBrowserContent : ContentJson :=
  { success := none, access_token := none, token_type := none,
    expires_in := none, refresh_token := none, scope := none,
    auto_open_browser := some true,
    authorization_url := some "https://auth.example/consent",
    auto_polling := some samplePollingCfg }

/-- A tool response embedding `sampleBrowserContent`. -/
def sampleBrowserResponse : RpcResponse :=
  { result := some { content := some [{ type := "text", text := .valid sampleBrowserContent }] } }

/-- C4: for two browser-authorization signals handled less than 10 seconds
apart, the external browser-open command runs at most once over the pair;
and when the first signal is outside the debounce window of any earlier open
(so it actually opens the browser), it runs exactly once: the second signal
only emits a reminder of the pending link and passes its polling directions
on (continuing the poll), without reopening the browser. -/
theorem c4_browser_open_debounce (env : String) (s : ProxyState)
    (r1 r2 : RpcResponse) (now1 now2 : Nat) (c1 c2 : ContentJson)
    (hp1 : firstPayload r1 = some c1) (hb1 : jsTruthyB c1.auto_open_browser = true)
    (hu1 : jsTruthyS c1.authorization_url = true)
    (hp2 : firstPayload r2 = some c2) (hb2 : jsTruthyB c2.auto_open_browser = true)
    (hu2 : jsTruthyS c2.authorization_url = true)
    (hd : now2 - now1 < debounceMs) :
    openCount (handleAutoOpenBrowserResponse env s r1 now1).2 +
      openCount (handleAutoOpenBrowserResponse env
        (handleAutoOpenBrowserResponse env s r1 now1).1 r2 now2).2 ≤ 1 ∧
    (debounceMs ≤ now1 - s.lastBrowserOpenTime →
      (handleAutoOpenBrowserResponse env s r1 now1).2
          = .opened (c1.authorization_url.getD "") (startedPolling c1) ∧
      (handleAutoOpenBrowserResponse env
          (handleAutoOpenBrowserResponse env s r1 now1).1 r2 now2).2
          = .reminded (c2.authorization_url.getD "") (startedPolling c2)) := by
  have hc1 : (jsTruthyB c1.auto_open_browser && jsTruthyS c1.authorization_url) = true := by
    rw [hb1, hu1]
    rfl
  have hc2 : (jsTruthyB c2.auto_open_browser && jsTruthyS c2.authorization_url) = true := by
    rw [hb2, hu2]
    rfl
  by_cases h1 : now1 - s.lastBrowserOpenTime < debounceMs
  · have e1 : handleAutoOpenBrowserResponse env s r1 now1
        = (s, .reminded (c1.authorization_url.getD "") (startedPolling c1)) := by
      simp [handleAutoOpenBrowserResponse, hp1, hc1, h1]
    constructor
    · rw [e1]
      simpa [openCount] using openCount_le_one (handleAutoOpenBrowserResponse env s r2 now2).2
    · intro hge
      omega
  · have e1 : handleAutoOpenBrowserResponse env s r1 now1
        = ({ token := none, lastBrowserOpenTime := now1, file := clearToken env s.file now1 },
           .opened (c1.authorization_url.getD "") (startedPolling c1)) := by
      simp [handleAutoOpenBrowserResponse, hp1, hc1, h1]
    have e2 : handleAutoOpenBrowserResponse env
        { token := none, lastBrowserOpenTime := now1, file := clearToken env s.file now1 } r2 now2
        = ({ token := none, lastBrowserOpenTime := now1, file := clearToken env s.file now1 },
           .reminded (c2.authorization_url.getD "") (startedPolling c2)) := by
      simp [handleAutoOpenBrowserResponse, hp2, hc2, hd]
    rw [e1, e2]
    exact ⟨by simp [openCount], fun _ => ⟨rfl, rfl⟩⟩

/-- Witness for C4: two concrete browser signals 5 seconds apart on a fresh
proxy open the browser exactly once; the second only reminds and continues
the poll. -/
theorem c4_browser_open_debounce_witness :
    (handleAutoOpenBrowserResponse "e" emptyState sampleBrowserResponse 50000).2
        = .opened "https://auth.example/consent" (some samplePollingCfg) ∧
    (handleAutoOpenBrowserResponse "e"
        (handleAutoOpenBrowserResponse "e" emptyState sampleBrowserResponse 50000).1
        sampleBrowserResponse 55000).2
        = .reminded "https://auth.example/consent" (some samplePollingCfg) :=
  (c4_browser_open_debounce "e" emptyState sampleBrowserResponse sampleBrowserResponse
    50000 55000 sampleBrowserContent sampleBrowserContent
    rfl rfl (by decide) rfl rfl (by decide) (by decide)).2 (by decide)

theorem mem_authNotRequiredTools (n : String) :
    n ∈ authNotRequiredTools ↔
      (n = "start_authentication" ∨ n = "get_code" ∨ n = "oauth_exchange_code_for_token" ∨
       n = "oauth_refresh_token" ∨ n = "oauth_validate_token" ∨ n = "tools/list" ∨
       n = "resources/list" ∨ n = "prompts/list") := by
  simp [authNotRequiredTools]

/-- C9: the bearer Authorization header is attached to an outbound request
exactly when a (truthy) token is currently held and the request is not in the
unauthenticated allow-list: the listing methods, and `tools/call` invocations
whose tool name is one of the auth-bootstrap names (including the listing
names repeated as tool names). -/
theorem c9_auth_header_allowlist (d : RpcRequest) (tok : Option String) :
    attachesAuthHeader d tok = true ↔
      ((∃ t, tok = some t ∧ t ≠ "") ∧
       ¬(d.method = "tools/list" ∨ d.method = "resources/list" ∨ d.method = "prompts/list" ∨
         (d.method = "tools/call" ∧
           (d.paramsName = some "start_authentication" ∨
            d.paramsName = some "get_code" ∨
            d.paramsName = some "oauth_exchange_code_for_token" ∨
            d.paramsName = some "oauth_refresh_token" ∨
            d.paramsName = some "oauth_validate_token" ∨
            d.paramsName = some "tools/list" ∨
            d.paramsName = some "resources/list" ∨
            d.paramsName = some "prompts/list")))) := by
  cases htok : tok with
  | none => simp [attachesAuthHeader, jsTruthyS]
  | some t =>
    cases hpn : d.paramsName with
    | none =>
      simp [attachesAuthHeader, needsAuth, jsTruthyS, bne_iff_ne, hpn]
      tauto
    | some n =>
      simp [attachesAuthHeader, needsAuth, jsTruthyS, bne_iff_ne, hpn,
            mem_authNotRequiredTools]
      tauto

/-- Counterexample to C5: a session started at time 0 whose first poll, fired
3 seconds later (the default interval), sees `completed` with token "abc123"
and no explicit lifetime, stores expiry 3000 + 7 days, which differs from
start-time + 7 days: the expiry is anchored at the completing poll's time,
not the session's start time. -/
theorem c5_counterexample :
    entryExpiry (fileLookup
        (runPolling "env" "ep" emptyState 0 300
          [(3000, some { status := "completed", token := some "abc123",
                         token_type := none })]).1.file "env")
      = some (3000 + msPerWeek) ∧ 3000 + msPerWeek ≠ 0 + msPerWeek := by
  constructor
  · rfl
  · decide

/-- C5 (amended): a polling session whose iterations see no terminal status
until, within the allowed wait window, one sees `completed` with token
"abc123" and no explicit lifetime, stops at that iteration (later events are
ignored), caches "abc123" in memory, and stores a record whose access token
is "abc123" and whose expiry is the completing poll's time + 7 days. -/
theorem c5_polling_completed (env endpoint : String) (s : ProxyState)
    (startTime maxWait t : Nat) (ttype : Option String)
    (pre rest : List (Nat × Option StateCheckResponse))
    (henv : env ≠ "_metadata")
    (hpre : ∀ e ∈ pre, pollStep startTime maxWait e.1 e.2 = .next)
    (ht : ¬ (maxWait * 1000 < t - startTime)) :
    ∃ s2 rec, runPolling env endpoint s startTime maxWait
        (pre ++ (t, some { status := "completed", token := some "abc123",
                           token_type := ttype }) :: rest)
      = (s2, .saved "abc123" t) ∧
      s2.token = some "abc123" ∧
      fileLookup s2.file env = some (.record rec) ∧
      rec.access_token = some "abc123" ∧
      rec.expires_at = t + msPerWeek := by
  induction pre with
  | nil =>
    have hstep : pollStep startTime maxWait t
        (some { status := "completed", token := some "abc123", token_type := ttype })
        = .save "abc123" ttype := by
      simp [pollStep, ht]
    simp only [List.nil_append, runPolling, hstep]
    refine ⟨_, mkCacheData env endpoint (pollSavePayload "abc123" ttype t) t,
      rfl, rfl, ?_, rfl, ?_⟩
    · simp only [saveToken, saveAllTokens, loadAllTokens, fileLookup]
      rw [lookupKey_setKey_ne _ _ _ _ henv, lookupKey_setKey_self]
    · have hz : ¬ (t + msPerWeek = 0) := by
        simp [msPerWeek]
      simp [mkCacheData, pollSavePayload, jsOrNat, hz]
  | cons e pre ih =>
    obtain ⟨t0, f0⟩ := e
    have h0 : pollStep startTime maxWait t0 f0 = .next := hpre (t0, f0) (by simp)
    simp only [List.cons_append, runPolling, h0]
    exact ih (fun e he => hpre e (by simp [he]))

/-- Witness for C5 (amended): a concrete session (start 0, max wait 300 s)
with one failed poll then `completed` "abc123" at 6000 ms. -/
theorem c5_polling_completed_witness :
    ∃ s2 rec, runPolling "env" "ep" emptyState 0 300
        ([(3000, none)] ++
          (6000,
            some { status := "completed", token := some "abc123", token_type := none })
          :: [])
      = (s2, .saved "abc123" 6000) ∧
      s2.token = some "abc123" ∧
      fileLookup s2.file "env" = some (.record rec) ∧
      rec.access_token = some "abc123" ∧
      rec.expires_at = 6000 + msPerWeek :=
  c5_polling_completed "env" "ep" emptyState 0 300 6000 none [(3000, none)] []
    (by decide) (by decide) (by decide)

/-- C8: a polling session none of whose in-window iterations sees a terminal
status (each merely reschedules), once an iteration runs strictly after
`max_wait_time` seconds have elapsed since the start, stops with a timeout
outcome and leaves the proxy state — in particular the token store —
completely unchanged: no record is saved. -/
theorem c8_polling_timeout (env endpoint : String) (s : ProxyState)
    (startTime maxWait : Nat) (events : List (Nat × Option StateCheckResponse))
    (hnt : ∀ e ∈ events, ¬ (maxWait * 1000 < e.1 - startTime) →
        pollStep startTime maxWait e.1 e.2 = .next)
    (hex : ∃ e ∈ events, maxWait * 1000 < e.1 - startTime) :
    runPolling env endpoint s startTime maxWait events = (s, .timeout) := by
  induction events with
  | nil => simp at hex
  | cons e rest ih =>
    obtain ⟨t0, f0⟩ := e
    by_cases hto : maxWait * 1000 < t0 - startTime
    · have hstep : pollStep startTime maxWait t0 f0 = .timeout := by
        simp [pollStep, hto]
      simp [runPolling, hstep]
    · have hstep : pollStep startTime maxWait t0 f0 = .next :=
        hnt (t0, f0) (by simp) hto
      simp only [runPolling, hstep]
      refine ih (fun e he hne => hnt e (by simp [he]) hne) ?_
      obtain ⟨e, he, hgt⟩ := hex
      rcases List.mem_cons.mp he with heq | hmem
      · rw [heq] at hgt
        exact absurd hgt hto
      · exact ⟨e, hmem, hgt⟩

/-- Witness for C8: a concrete session (start 0, max wait 300 s) whose polls
at 1 s and 200 s fail transiently and whose poll at 400 s is past the
deadline: the run times out with the state untouched. -/
theorem c8_polling_timeout_witness :
    runPolling "env" "ep" emptyState 0 300 [(1000, none), (200000, none), (400000, none)]
      = (emptyState, .timeout) :=
  c8_polling_timeout "env" "ep" emptyState 0 300
    [(1000, none), (200000, none), (400000, none)] (by decide) (by decide)

/-- The expired record a refresh starts from (refreshes are only triggered by
`loadCachedToken` when `getTokenStatus` reports "expired"). -/
def sampleOldRecord : TokenRecord :=
  { access_token := some "oldtok", token_type := "Bearer", expires_at := 5,
    refresh_token := some "rtok", scope := none, created_at := 0,
    endpoint := "ep", environment := "env", last_used := 0 }

/-- A successful refresh payload carrying a 60-second lifetime. -/
def sampleRefreshContent : ContentJson :=
  { success := some true, access_token := some "newtok", token_type := some "Bearer",
    expires_in := some 60, refresh_token := none, scope := none,
    auto_open_browser := none, authorization_url := none, auto_polling := none }

/-- A tool response embedding `sampleRefreshContent`. -/
def sampleRefreshResponse : RpcResponse :=
  { result := some { content := some [{ type := "text", text := .valid sampleRefreshContent }] } }

/-- C6: across a successful refresh of an environment key's record, the
stored expiry never decreases.  The code guarantees this because a refresh is
only triggered when the old record is already expired (`getTokenStatus`
reported "expired" at check time `t1`, so `old.expires_at < t1`), the save
happens no earlier (`t1 ≤ t2`), and the new expiry is `t2` plus a
non-negative lifetime (or `t2` + 7 days when `expires_in` is absent). -/
theorem c6_refresh_expiry_monotone (env endpoint : String) (file : TokensFile)
    (old : TokenRecord) (rt : String) (r : RpcResponse) (c : ContentJson)
    (t1 t2 : Nat) (henv : env ≠ "_metadata")
    (hold : fileLookup file env = some (.record old))
    (htruthy : old.expires_at ≠ 0) (hexp : old.expires_at < t1) (h12 : t1 ≤ t2)
    (hp : firstPayload r = some c) (hsucc : jsTruthyB c.success = true) :
    ∃ rec, fileLookup (refreshTokenModel env endpoint file rt r t2).1 env
        = some (.record rec) ∧
      old.expires_at ≤ rec.expires_at := by
  simp only [refreshTokenModel, hp, hsucc, if_true]
  refine ⟨mkCacheData env endpoint
    { access_token := c.access_token
      token_type := c.token_type
      expires_at := c.expires_in.map (fun k => t2 + k * 1000)
      refresh_token := some (jsOrStr c.refresh_token rt)
      scope := c.scope } t2, ?_, ?_⟩
  · simp only [saveToken, saveAllTokens, loadAllTokens, fileLookup]
    rw [lookupKey_setKey_ne _ _ _ _ henv, lookupKey_setKey_self]
  · have hbase : old.expires_at ≤ t2 := le_of_lt (lt_of_lt_of_le hexp h12)
    simp only [mkCacheData, jsOrNat]
    cases hin : c.expires_in with
    | none => exact le_trans hbase (Nat.le_add_right _ _)
    | some k =>
      simp only [Option.map_some']
      by_cases hz : t2 + k * 1000 = 0
      · simp only [hz, if_true, reduceIte]
        exact le_trans hbase (Nat.le_add_right _ _)
      · simp only [if_neg hz]
        exact le_trans hbase (Nat.le_add_right _ _)

/-- Witness for C6: a concrete expired record (expiry 5) refreshed at check
time 10 and save time 20 with a 60-second lifetime keeps a non-decreasing
expiry. -/
theorem c6_refresh_expiry_monotone_witness :
    ∃ rec, fileLookup
        (refreshTokenModel "env" "ep" (.parsed [("env", .record sampleOldRecord)])
          "rtok" sampleRefreshResponse 20).1 "env"
      = some (.record rec) ∧
      sampleOldRecord.expires_at ≤ rec.expires_at :=
  c6_refresh_expiry_monotone "env" "ep" (.parsed [("env", .record sampleOldRecord)])
    sampleOldRecord "rtok" sampleRefreshResponse sampleRefreshContent 10 20
    (by decide) rfl (by decide) (by decide) (by decide) rfl (by decide)
